import Mathlib

set_option autoImplicit false

/-!
Shallow embedding of the MicroRent tenant frontend: the token store, the
authenticated request gateway (fetchWithAuth), the login call and login form,
the dashboard session bootstrap with its two read fetches, the status-badge
lookup, and the repair-request / payment-proof submission flows.

Browser effects are made explicit: the persisted token, the value assigned to
window.location.href, router pushes, alert messages and the log of outbound
network requests are all carried in explicit state records.  The network is a
parameter (a function from the outbound request to the backend response), so
theorems quantify over backend behaviour.
-/

namespace MicroRent

/-- A selected browser file, identified by its contents (opaque for this model). -/
abbrev FileBlob := String

/-- Model of FileReader.readAsDataURL's result for a file (the preview string). -/
def dataUrl (f : FileBlob) : String := "data:" ++ f

/-- An outbound HTTP request: URL, headers, and multipart/JSON body entries. -/
structure Request where
  url : String
  headers : List (String × String)
  formBody : List (String × String)
deriving Repr, DecidableEq

/-- A backend response with status code and an already-parsed body of type β. -/
structure Response (β : Type) where
  status : Nat
  body : β
deriving Repr, DecidableEq

/-- fetch's Response.ok: status in the range 200..299. -/
def Response.ok {β : Type} (r : Response β) : Bool :=
  decide (200 ≤ r.status) && decide (r.status ≤ 299)

/-- JS `a || b` for a nullable string a: null and the empty string fall through. -/
def jsOrOpt (a : Option String) (b : String) : String :=
  match a with
  | some s => if s = "" then b else s
  | none => b

/-- JS `a || b` for a string a: the empty string falls through. -/
def jsOrStr (a b : String) : String :=
  if a = "" then b else a

/-- api.ts API_BASE_URL (default branch of the env lookup). -/
def API_BASE_URL : String := "http://localhost:8000"

/-- api.ts TOKEN_KEY, the localStorage key of the stored credential. -/
def TOKEN_KEY : String := "microrent_access_token"

/-- Browser-context state visible to the api client: the credential persisted
under TOKEN_KEY, the last full-navigation target assigned to
window.location.href (none when no navigation was forced), and the log of
outbound network requests issued so far. -/
structure ClientState where
  tokenStore : Option String
  locationHref : Option String
  netLog : List Request
deriving Repr, DecidableEq

def getAccessToken (s : ClientState) : Option String :=
  s.tokenStore

def setAccessToken (token : String) (s : ClientState) : ClientState :=
  { s with tokenStore := some token }

def clearAccessToken (s : ClientState) : ClientState :=
  { s with tokenStore := none }

/-- The literal path api.ts assigns to window.location.href on a 401. -/
def loginRedirectPath : String := "/(tenant)/login"

/-- JS truthiness of a nullable string: null and the empty string are falsy. -/
def jsTruthy (a : Option String) : Bool :=
  match a with
  | some s => !(s == "")
  | none => false

/-- The Authorization header value, `token ? "Bearer " + token : ""`: JS
truthiness makes a stored empty-string token behave exactly like an absent
one (the header value is the empty string, not "Bearer "). -/
def bearerHeaderValue (token : Option String) : String :=
  match token with
  | some t => if t = "" then "" else "Bearer " ++ t
  | none => ""

/-- JS object spread {...headers, Authorization: value}: when the caller
already supplied an Authorization key it is overridden in place (one entry,
no duplicate); otherwise the entry is appended. -/
def spreadAuthHeader (headers : List (String × String)) (value : String) :
    List (String × String) :=
  if headers.any (fun p => p.1 == "Authorization") then
    headers.map (fun p => if p.1 == "Authorization" then ("Authorization", value) else p)
  else
    headers ++ [("Authorization", value)]

/-- The request fetchWithAuth sends: base URL plus endpoint, caller headers
spread first, then the Authorization entry (always present, overriding any
caller-supplied one). -/
def buildAuthRequest (endpoint : String) (optHeaders : List (String × String))
    (token : Option String) : Request :=
  { url := API_BASE_URL ++ endpoint
    headers := spreadAuthHeader optHeaders (bearerHeaderValue token)
    formBody := [] }

/-- What one fetchWithAuth call yields: the value returned or error thrown,
the browser state afterwards, and the request that went out. -/
structure FetchAuthResult (β : Type) where
  result : Except String (Response β)
  state : ClientState
  request : Request

/-- api.ts fetchWithAuth: read the token, attach the Authorization header,
issue the call; on a 401 clear the credential, force a full navigation to the
login path and throw "Unauthorized"; otherwise return the raw response. -/
def fetchWithAuth {β : Type} (endpoint : String) (optHeaders : List (String × String))
    (net : Request → Response β) (s : ClientState) : FetchAuthResult β :=
  let token := getAccessToken s
  let req := buildAuthRequest endpoint optHeaders token
  let s1 : ClientState := { s with netLog := s.netLog ++ [req] }
  let response := net req
  if response.status = 401 then
    let s2 := clearAccessToken s1
    let s3 : ClientState := { s2 with locationHref := some loginRedirectPath }
    { result := Except.error "Unauthorized", state := s3, request := req }
  else
    { result := Except.ok response, state := s1, request := req }

/-- Parsed body of the login response: access_token used on the ok path,
detail used on the failure path (absent when the backend sent none). -/
structure LoginBody where
  access_token : String
  detail : Option String
deriving Repr, DecidableEq

/-- The request login sends (plain fetch, not through fetchWithAuth). -/
def loginRequest (email password : String) : Request :=
  { url := API_BASE_URL ++ "/api/auth/login"
    headers := [("Content-Type", "application/json")]
    formBody := [("email", email), ("password", password)] }

structure LoginCallResult where
  result : Except String LoginBody
  state : ClientState

/-- api.ts login: POST credentials; on non-ok throw Error(detail || "登入失敗");
on ok store the access token and return the parsed body. -/
def login (email password : String) (net : Request → Response LoginBody)
    (s : ClientState) : LoginCallResult :=
  let req := loginRequest email password
  let s1 : ClientState := { s with netLog := s.netLog ++ [req] }
  let response := net req
  if !response.ok then
    { result := Except.error (jsOrOpt response.body.detail "登入失敗"), state := s1 }
  else
    { result := Except.ok response.body, state := setAccessToken response.body.access_token s1 }

/-- api.ts TenantInfo. -/
structure TenantInfo where
  id : String
  name : String
  email : String
  phone : String
  room_number : String
  property_name : String
  rent_amount : Nat
  rent_due_date : String
  payment_status : String
  contract_start : String
  contract_end : String
deriving Repr, DecidableEq

/-- api.ts PaymentRecord. -/
structure PaymentRecord where
  id : String
  amount : Nat
  paid_date : Option String
  period : String
  status : String
deriving Repr, DecidableEq

/-- Parsed body of GET /api/tenant/payments. -/
structure PaymentsBody where
  payments : List PaymentRecord
deriving Repr, DecidableEq

/-- api.ts getTenantInfo: fetchWithAuth /api/tenant/me; on non-ok throw
"無法取得房客資訊"; on ok return the parsed body. -/
def getTenantInfo (net : Request → Response TenantInfo) (s : ClientState) :
    Except String TenantInfo × ClientState :=
  let fr := fetchWithAuth "/api/tenant/me" [] net s
  match fr.result with
  | Except.error e => (Except.error e, fr.state)
  | Except.ok response =>
      if !response.ok then (Except.error "無法取得房客資訊", fr.state)
      else (Except.ok response.body, fr.state)

/-- api.ts getPaymentHistory: fetchWithAuth /api/tenant/payments; on non-ok
throw "無法取得繳費紀錄"; on ok return data.payments. -/
def getPaymentHistory (net : Request → Response PaymentsBody) (s : ClientState) :
    Except String (List PaymentRecord) × ClientState :=
  let fr := fetchWithAuth "/api/tenant/payments" [] net s
  match fr.result with
  | Except.error e => (Except.error e, fr.state)
  | Except.ok response =>
      if !response.ok then (Except.error "無法取得繳費紀錄", fr.state)
      else (Except.ok response.body.payments, fr.state)

/-- Dashboard component state after the bootstrap effect settles. -/
structure DashboardView where
  routerPush : Option String
  tenant : Option TenantInfo
  payments : List PaymentRecord
  isLoading : Bool
deriving Repr, DecidableEq

/-- The dashboard useEffect: read the token from localStorage; the guard is
`if (!token)` — JS truthiness, so an absent OR empty-string token pushes the
login route and fetches nothing; otherwise both read fetches run
(Promise.all, sequentialised here: both requests are issued either way) and
either populate the view or fall to the catch branch. -/
def dashboardEffect (netMe : Request → Response TenantInfo)
    (netPay : Request → Response PaymentsBody) (s : ClientState) :
    DashboardView × ClientState :=
  if !(jsTruthy s.tokenStore) then
    ({ routerPush := some loginRedirectPath, tenant := none
       payments := [], isLoading := true }, s)
  else
    let rt := getTenantInfo netMe s
    let rp := getPaymentHistory netPay rt.2
    match rt.1, rp.1 with
    | Except.ok t, Except.ok ps =>
        ({ routerPush := none, tenant := some t, payments := ps, isLoading := false }, rp.2)
    | Except.ok _, Except.error _ =>
        ({ routerPush := none, tenant := none, payments := [], isLoading := false }, rp.2)
    | Except.error _, _ =>
        ({ routerPush := none, tenant := none, payments := [], isLoading := false }, rp.2)

/-- One rendered status badge: its colour classes and label text. -/
structure Badge where
  color : String
  label : String
deriving Repr, DecidableEq

def paidBadge : Badge := { color := "bg-green-100 text-green-800", label := "已繳納" }

def unpaidBadge : Badge := { color := "bg-yellow-100 text-yellow-800", label := "待繳納" }

def overdueBadge : Badge := { color := "bg-red-100 text-red-800", label := "逾期" }

/-- dashboard getStatusBadge: a switch over the status string with no default
case — an unrecognized status returns undefined (none), rendering nothing. -/
def getStatusBadge (status : String) : Option Badge :=
  if status = "paid" then some paidBadge
  else if status = "unpaid" then some unpaidBadge
  else if status = "overdue" then some overdueBadge
  else none

/-- TenantLogin UI state (error message, spinner flag). -/
structure LoginUIState where
  error : String
  isLoading : Bool
deriving Repr, DecidableEq

structure LoginSubmitResult where
  ui : LoginUIState
  state : ClientState
  routerPush : Option String

/-- TenantLogin handleSubmit: await login; on success push the dashboard
route; on failure setError(err.message || "登入失敗，請檢查帳號密碼"). -/
def tenantLoginSubmit (email password : String) (net : Request → Response LoginBody)
    (s : ClientState) : LoginSubmitResult :=
  let call := login email password net s
  match call.result with
  | Except.ok _ =>
      { ui := { error := "", isLoading := false }, state := call.state
        routerPush := some "/(tenant)/dashboard" }
  | Except.error msg =>
      { ui := { error := jsOrStr msg "登入失敗，請檢查帳號密碼", isLoading := false }
        state := call.state, routerPush := none }

/-- RepairRequest component state: selected files, preview strings, and the
alert messages shown so far. -/
structure RepairState where
  selectedFiles : List FileBlob
  previewUrls : List String
  alerts : List String
deriving Repr, DecidableEq

def initialRepairState : RepairState :=
  { selectedFiles := [], previewUrls := [], alerts := [] }

/-- repair handleFileSelect: if the new batch would push the total over 5,
alert and return without touching the selection; otherwise append the files
and (via FileReader, modelled synchronously in file order) their previews. -/
def handleFileSelect (files : List FileBlob) (s : RepairState) : RepairState :=
  if files.length + s.selectedFiles.length > 5 then
    { s with alerts := s.alerts ++ ["最多只能上傳 5 張照片"] }
  else
    { s with
      selectedFiles := s.selectedFiles ++ files
      previewUrls := s.previewUrls ++ files.map dataUrl }

/-- JS Array.prototype.filter with the element index: keep the elements whose
index (counting from start) satisfies p. -/
def filterIdxFrom {α : Type} (p : Nat → Bool) (start : Nat) : List α → List α
  | [] => []
  | x :: xs =>
      if p start then x :: filterIdxFrom p (start + 1) xs
      else filterIdxFrom p (start + 1) xs

/-- repair removeImage: filter((_, i) => i !== index) on both lists. -/
def removeImage (index : Nat) (s : RepairState) : RepairState :=
  { s with
    selectedFiles := filterIdxFrom (fun i => i != index) 0 s.selectedFiles
    previewUrls := filterIdxFrom (fun i => i != index) 0 s.previewUrls }

/-- One user interaction on the repair page's image selection. -/
inductive RepairOp where
  | select (files : List FileBlob)
  | remove (index : Nat)

def repairStep (s : RepairState) (op : RepairOp) : RepairState :=
  match op with
  | RepairOp.select files => handleFileSelect files s
  | RepairOp.remove index => removeImage index s

/-- Run a sequence of selection interactions from the initial (empty) state. -/
def runRepairOps (ops : List RepairOp) : RepairState :=
  ops.foldl repairStep initialRepairState

/-- Payment page draft state: the optional receipt file and its preview. -/
structure PaymentDraft where
  selectedFile : Option FileBlob
  previewUrl : Option String
deriving Repr, DecidableEq

/-- The outcome of one plain fetch: a response, or a thrown network error. -/
inductive FetchOutcome (β : Type) where
  | success (response : Response β)
  | networkError
deriving Repr, DecidableEq

/-- The single request payment handleSubmit sends: plain fetch, no headers
set, form fields plus the receipt image when one is selected. -/
def paymentSubmitRequest (form : List (String × String)) (draft : PaymentDraft) : Request :=
  { url := "http://localhost:8000/api/payment/submit"
    headers := []
    formBody := form ++ (match draft.selectedFile with
      | some f => [("receipt_image", f)]
      | none => []) }

/-- What one payment handleSubmit run produced. -/
structure PaymentSubmitResult where
  draft : PaymentDraft
  isSubmitting : Bool
  requests : List Request
  alerts : List String
  routerPush : Option String
deriving Repr, DecidableEq

/-- payment handleSubmit: one fetch to /api/payment/submit; ok alerts a
confirmation and pushes the dashboard route; non-ok alerts a failure; a
thrown network error alerts a network message; the draft is never reset. -/
def paymentHandleSubmit (form : List (String × String)) (net : FetchOutcome Unit)
    (draft : PaymentDraft) : PaymentSubmitResult :=
  let req := paymentSubmitRequest form draft
  match net with
  | FetchOutcome.success response =>
      if response.ok then
        { draft := draft, isSubmitting := false, requests := [req]
          alerts := ["✅ 繳費記錄已提交，請等待房東確認"]
          routerPush := some "/(tenant)/dashboard" }
      else
        { draft := draft, isSubmitting := false, requests := [req]
          alerts := ["❌ 提交失敗，請稍後再試"], routerPush := none }
  | FetchOutcome.networkError =>
      { draft := draft, isSubmitting := false, requests := [req]
        alerts := ["❌ 網路錯誤，請檢查連線"], routerPush := none }

/-! Shared helper lemmas about the gateway and the read APIs. -/

/-- On a 401 response, fetchWithAuth clears the token, records the redirect
and throws; the request was still logged. -/
theorem fetchWithAuth_eq_of_401 {β : Type} (endpoint : String)
    (optHeaders : List (String × String)) (net : Request → Response β) (s : ClientState)
    (h : (net (buildAuthRequest endpoint optHeaders (getAccessToken s))).status = 401) :
    fetchWithAuth endpoint optHeaders net s =
      { result := Except.error "Unauthorized"
        state := { tokenStore := none, locationHref := some loginRedirectPath
                   netLog := s.netLog ++ [buildAuthRequest endpoint optHeaders (getAccessToken s)] }
        request := buildAuthRequest endpoint optHeaders (getAccessToken s) } := by
  unfold fetchWithAuth
  rw [if_pos h]
  rfl

/-- Off the 401 path, fetchWithAuth returns the raw response unchanged. -/
theorem fetchWithAuth_eq_of_not401 {β : Type} (endpoint : String)
    (optHeaders : List (String × String)) (net : Request → Response β) (s : ClientState)
    (h : (net (buildAuthRequest endpoint optHeaders (getAccessToken s))).status ≠ 401) :
    fetchWithAuth endpoint optHeaders net s =
      { result := Except.ok (net (buildAuthRequest endpoint optHeaders (getAccessToken s)))
        state := { s with netLog := s.netLog ++ [buildAuthRequest endpoint optHeaders (getAccessToken s)] }
        request := buildAuthRequest endpoint optHeaders (getAccessToken s) } := by
  unfold fetchWithAuth
  rw [if_neg h]

/-- The request that goes out does not depend on the backend's response. -/
theorem fetchWithAuth_request_eq {β : Type} (endpoint : String)
    (optHeaders : List (String × String)) (net : Request → Response β) (s : ClientState) :
    (fetchWithAuth endpoint optHeaders net s).request
      = buildAuthRequest endpoint optHeaders (getAccessToken s) := by
  simp only [fetchWithAuth]
  split <;> rfl

/-- The request is appended to the network log whatever the response was. -/
theorem fetchWithAuth_netLog_eq {β : Type} (endpoint : String)
    (optHeaders : List (String × String)) (net : Request → Response β) (s : ClientState) :
    (fetchWithAuth endpoint optHeaders net s).state.netLog
      = s.netLog ++ [buildAuthRequest endpoint optHeaders (getAccessToken s)] := by
  simp only [fetchWithAuth]
  split <;> rfl

/-- An ok response (status 200..299) is never the 401 case. -/
theorem status_ne_401_of_ok {β : Type} (r : Response β) (h : r.ok = true) :
    r.status ≠ 401 := by
  unfold Response.ok at h
  simp only [Bool.and_eq_true, decide_eq_true_eq] at h
  omega

/-- getTenantInfo leaves the browser state exactly as its gateway call did. -/
theorem getTenantInfo_state_eq (net : Request → Response TenantInfo) (s : ClientState) :
    (getTenantInfo net s).2 = (fetchWithAuth "/api/tenant/me" [] net s).state := by
  simp only [getTenantInfo]
  split
  · rfl
  · split <;> rfl

/-- getPaymentHistory leaves the browser state exactly as its gateway call did. -/
theorem getPaymentHistory_state_eq (net : Request → Response PaymentsBody) (s : ClientState) :
    (getPaymentHistory net s).2 = (fetchWithAuth "/api/tenant/payments" [] net s).state := by
  simp only [getPaymentHistory]
  split
  · rfl
  · split <;> rfl

/-! Theorems for the frozen claims. -/

/-- Claim C1: for every call through fetchWithAuth, a 401 backend response
clears the stored Credential, forces a full navigation to the login path,
and raises an "Unauthorized" failure, so the original response object is
never returned to the caller. -/
theorem fetchWithAuth_unauthorized_handling {β : Type} (endpoint : String)
    (optHeaders : List (String × String)) (net : Request → Response β) (s : ClientState)
    (h : (net (buildAuthRequest endpoint optHeaders (getAccessToken s))).status = 401) :
    (fetchWithAuth endpoint optHeaders net s).result = Except.error "Unauthorized" ∧
    (fetchWithAuth endpoint optHeaders net s).state.tokenStore = none ∧
    (fetchWithAuth endpoint optHeaders net s).state.locationHref = some loginRedirectPath ∧
    ∀ r : Response β, (fetchWithAuth endpoint optHeaders net s).result ≠ Except.ok r := by
  rw [fetchWithAuth_eq_of_401 endpoint optHeaders net s h]
  refine ⟨rfl, rfl, rfl, ?_⟩
  intro r hr
  exact Except.noConfusion hr

/-- A backend that answers 401 to everything, with a trivial body. -/
def net401Unit : Request → Response Unit :=
  fun _ => { status := 401, body := () }

/-- A browser state holding a stored credential and no prior activity. -/
def tokenClientState : ClientState :=
  { tokenStore := some "tok", locationHref := none, netLog := [] }

/-- Witness for claim C1 at a concrete input: a stored token and a 401 from
GET /api/tenant/me. -/
theorem fetchWithAuth_unauthorized_handling_witness :
    (fetchWithAuth "/api/tenant/me" [] net401Unit tokenClientState).result
        = Except.error "Unauthorized" ∧
    (fetchWithAuth "/api/tenant/me" [] net401Unit tokenClientState).state.tokenStore = none ∧
    (fetchWithAuth "/api/tenant/me" [] net401Unit tokenClientState).state.locationHref
        = some loginRedirectPath ∧
    ∀ r : Response Unit,
      (fetchWithAuth "/api/tenant/me" [] net401Unit tokenClientState).result ≠ Except.ok r :=
  fetchWithAuth_unauthorized_handling "/api/tenant/me" [] net401Unit tokenClientState rfl

/-- A backend that answers 200 to everything, with a trivial body. -/
def okNetUnit : Request → Response Unit :=
  fun _ => { status := 200, body := () }

/-- A fresh browser state: no credential, no navigation, no requests yet. -/
def emptyClientState : ClientState :=
  { tokenStore := none, locationHref := none, netLog := [] }

/-- Claim C2 counterexample: with no stored Credential the outbound request
still carries an Authorization header — present with the empty string as its
value, not absent as the claim states. -/
theorem fetchWithAuth_no_token_header_present :
    (fetchWithAuth "/api/tenant/me" [] okNetUnit emptyClientState).request.headers
      = [("Authorization", "")] ∧
    ¬ ((fetchWithAuth "/api/tenant/me" [] okNetUnit emptyClientState).request.headers.all
        (fun h => h.1 != "Authorization") = true) := by
  refine ⟨rfl, ?_⟩
  decide

/-- Looking up Authorization in headers that carried no such key and got the
entry appended finds exactly the appended value. -/
theorem lookup_append_auth (value : String) (headers : List (String × String))
    (h : headers.any (fun p => p.1 == "Authorization") = false) :
    (headers ++ [("Authorization", value)]).lookup "Authorization" = some value := by
  induction headers with
  | nil => rfl
  | cons p ps ih =>
      rw [List.any_cons, Bool.or_eq_false_iff] at h
      have h1 : ("Authorization" == p.1) = false := by
        rw [beq_eq_false_iff_ne] at h ⊢
        exact fun e => h.1 e.symm
      rw [List.cons_append]
      simp only [List.lookup, h1]
      exact ih h.2

/-- Looking up Authorization after the in-place override finds the new value
whenever the key was present. -/
theorem lookup_map_override (value : String) (headers : List (String × String))
    (h : headers.any (fun p => p.1 == "Authorization") = true) :
    (headers.map
        (fun p => if p.1 == "Authorization" then ("Authorization", value) else p)).lookup
      "Authorization" = some value := by
  induction headers with
  | nil => simp at h
  | cons p ps ih =>
      obtain ⟨k, v⟩ := p
      rw [List.map_cons]
      by_cases hp : k = "Authorization"
      · subst hp
        simp [List.lookup]
      · have hb : (k == "Authorization") = false := beq_eq_false_iff_ne.mpr hp
        have hb' : ("Authorization" == k) = false :=
          beq_eq_false_iff_ne.mpr (fun e => hp e.symm)
        have h2 : ps.any (fun p => p.1 == "Authorization") = true := by
          rw [List.any_cons] at h
          simp only [hb, Bool.false_or] at h
          exact h
        have hnc : ¬ ((k == "Authorization") = true) := by simp [hb]
        rw [if_neg hnc]
        simp only [List.lookup, hb']
        exact ih h2

/-- The spread result always answers the Authorization lookup with the value
the gateway computed. -/
theorem lookup_spreadAuthHeader (headers : List (String × String)) (value : String) :
    (spreadAuthHeader headers value).lookup "Authorization" = some value := by
  unfold spreadAuthHeader
  split
  · rename_i h
    exact lookup_map_override value headers h
  · rename_i h
    rw [Bool.not_eq_true] at h
    exact lookup_append_auth value headers h

/-- When the caller supplied no Authorization key the spread is a plain
append of the single entry. -/
theorem spreadAuthHeader_of_no_auth (value : String) (headers : List (String × String))
    (h : headers.all (fun p => p.1 != "Authorization") = true) :
    spreadAuthHeader headers value = headers ++ [("Authorization", value)] := by
  unfold spreadAuthHeader
  have hany : headers.any (fun p => p.1 == "Authorization") = false := by
    rw [List.any_eq_false]
    intro p hp
    rw [List.all_eq_true] at h
    have hne := h p hp
    simp only [bne_iff_ne, ne_eq] at hne
    simp [hne]
  rw [if_neg (by rw [hany]; exact Bool.false_ne_true)]

/-- Claim C2 (amended): the outbound request always carries an Authorization
header (a caller-supplied one is overridden, not duplicated); its value is
the empty string when no Credential is stored OR the stored credential is the
empty string — JS truthiness — so no bearer credential is attached and no
local error is raised (absent a 401 the response is returned to the caller);
with a nonempty stored Credential the value is the bearer credential. -/
theorem fetchWithAuth_header_attachment {β : Type} (endpoint : String)
    (optHeaders : List (String × String)) (net : Request → Response β) (s : ClientState) :
    ((fetchWithAuth endpoint optHeaders net s).request.headers.lookup "Authorization"
      = some (bearerHeaderValue s.tokenStore)) ∧
    (optHeaders.all (fun p => p.1 != "Authorization") = true →
      (fetchWithAuth endpoint optHeaders net s).request.headers
        = optHeaders ++ [("Authorization", bearerHeaderValue s.tokenStore)]) ∧
    ((s.tokenStore = none ∨ s.tokenStore = some "") →
      bearerHeaderValue s.tokenStore = "") ∧
    (∀ t : String, s.tokenStore = some t → t ≠ "" →
      bearerHeaderValue s.tokenStore = "Bearer " ++ t) ∧
    ((net (buildAuthRequest endpoint optHeaders (getAccessToken s))).status ≠ 401 →
      (fetchWithAuth endpoint optHeaders net s).result
        = Except.ok (net (buildAuthRequest endpoint optHeaders (getAccessToken s)))) := by
  refine ⟨?_, ?_, ?_, ?_, ?_⟩
  · rw [fetchWithAuth_request_eq]
    exact lookup_spreadAuthHeader optHeaders (bearerHeaderValue s.tokenStore)
  · intro hall
    rw [fetchWithAuth_request_eq]
    exact spreadAuthHeader_of_no_auth (bearerHeaderValue s.tokenStore) optHeaders hall
  · rintro (h | h) <;> rw [h] <;> rfl
  · intro t ht hne
    rw [ht]
    simp [bearerHeaderValue, hne]
  · intro h
    rw [fetchWithAuth_eq_of_not401 endpoint optHeaders net s h]

/-- Claim C3: when a newly chosen batch would push the selection past 5
images, handleFileSelect rejects the whole batch with the user-facing alert
and leaves the selection (files and previews) exactly as it was. -/
theorem handleFileSelect_over_cap (files : List FileBlob) (s : RepairState)
    (h : files.length + s.selectedFiles.length > 5) :
    (handleFileSelect files s).selectedFiles = s.selectedFiles ∧
    (handleFileSelect files s).previewUrls = s.previewUrls ∧
    (handleFileSelect files s).alerts = s.alerts ++ ["最多只能上傳 5 張照片"] := by
  unfold handleFileSelect
  rw [if_pos h]
  exact ⟨rfl, rfl, rfl⟩

/-- A repair page state with three images already selected. -/
def repairStateThree : RepairState :=
  { selectedFiles := ["a", "b", "c"]
    previewUrls := ["data:a", "data:b", "data:c"]
    alerts := [] }

/-- Witness for claim C3 at a concrete input: 3 selected images plus a new
batch of 3 exceeds the cap of 5. -/
theorem handleFileSelect_over_cap_witness :
    (handleFileSelect ["d", "e", "f"] repairStateThree).selectedFiles
        = repairStateThree.selectedFiles ∧
    (handleFileSelect ["d", "e", "f"] repairStateThree).previewUrls
        = repairStateThree.previewUrls ∧
    (handleFileSelect ["d", "e", "f"] repairStateThree).alerts
        = repairStateThree.alerts ++ ["最多只能上傳 5 張照片"] :=
  handleFileSelect_over_cap ["d", "e", "f"] repairStateThree (by decide)

/-- Claim C4: payment-proof submission makes exactly one network call, sends
it outside the Authenticated Request Gateway (no Authorization header at
all); an ok response shows the confirmation and pushes the dashboard route;
any non-success (non-ok status or thrown network error) shows a generic
failure message, pushes nowhere, and leaves the draft untouched (in fact the
draft is untouched on every path). -/
theorem paymentHandleSubmit_behavior (form : List (String × String))
    (net : FetchOutcome Unit) (draft : PaymentDraft) :
    (paymentHandleSubmit form net draft).requests = [paymentSubmitRequest form draft] ∧
    (paymentSubmitRequest form draft).headers = [] ∧
    (paymentHandleSubmit form net draft).draft = draft ∧
    (match net with
     | FetchOutcome.success response =>
        if response.ok then
          (paymentHandleSubmit form net draft).alerts = ["✅ 繳費記錄已提交，請等待房東確認"] ∧
          (paymentHandleSubmit form net draft).routerPush = some "/(tenant)/dashboard"
        else
          (paymentHandleSubmit form net draft).alerts = ["❌ 提交失敗，請稍後再試"] ∧
          (paymentHandleSubmit form net draft).routerPush = none
     | FetchOutcome.networkError =>
          (paymentHandleSubmit form net draft).alerts = ["❌ 網路錯誤，請檢查連線"] ∧
          (paymentHandleSubmit form net draft).routerPush = none) := by
  match net with
  | FetchOutcome.success response =>
      by_cases h : response.ok
      · simp [paymentHandleSubmit, paymentSubmitRequest, h]
      · simp [paymentHandleSubmit, paymentSubmitRequest, h]
  | FetchOutcome.networkError =>
      exact ⟨rfl, rfl, rfl, rfl, rfl⟩

/-- The whole dashboard bootstrap run under a falsy token (absent or empty
string) touches nothing: same state, no data fetched, login redirect. -/
theorem dashboardEffect_of_falsy_token (netMe : Request → Response TenantInfo)
    (netPay : Request → Response PaymentsBody) (s : ClientState)
    (h : jsTruthy s.tokenStore = false) :
    dashboardEffect netMe netPay s =
      ({ routerPush := some loginRedirectPath, tenant := none
         payments := [], isLoading := true }, s) := by
  simp [dashboardEffect, h]

/-- With a truthy token, the bootstrap's final browser state is the one left
by running the payment-history fetch after the tenant fetch. -/
theorem dashboardEffect_state_of_truthy_token (netMe : Request → Response TenantInfo)
    (netPay : Request → Response PaymentsBody) (s : ClientState)
    (h : jsTruthy s.tokenStore = true) :
    (dashboardEffect netMe netPay s).2
      = (getPaymentHistory netPay (getTenantInfo netMe s).2).2 := by
  simp only [dashboardEffect, h, Bool.not_true, Bool.false_eq_true, if_false]
  split <;> rfl

/-- A concrete tenant record, used to give concrete backends a body. -/
def sampleTenant : TenantInfo :=
  { id := "t1", name := "Tenant", email := "a@b.com", phone := "0912345678"
    room_number := "101", property_name := "P1", rent_amount := 15000
    rent_due_date := "2026-01-05", payment_status := "unpaid"
    contract_start := "2025-01-01", contract_end := "2026-12-31" }

/-- A backend whose /api/tenant/me always answers 200 with a tenant record. -/
def okTenantNet : Request → Response TenantInfo :=
  fun _ => { status := 200, body := sampleTenant }

/-- A backend whose /api/tenant/me always answers 401. -/
def net401Tenant : Request → Response TenantInfo :=
  fun _ => { status := 401, body := sampleTenant }

/-- A backend whose /api/tenant/payments always answers 200 with no records. -/
def okPaymentsNet : Request → Response PaymentsBody :=
  fun _ => { status := 200, body := { payments := [] } }

/-- A browser state whose stored credential is the empty string — reachable
through a 200 login response carrying access_token "". -/
def emptyTokenClientState : ClientState :=
  { tokenStore := some "", locationHref := none, netLog := [] }

/-- Claim C5 counterexample: a Credential IS stored (the empty string), yet
the bootstrap redirects to the login route and issues zero network calls —
the `if (!token)` guard is JS truthiness, so the claim's stored-credential
half fails at this input even against a fully working backend. -/
theorem dashboard_empty_token_zero_fetches :
    emptyTokenClientState.tokenStore = some "" ∧
    (dashboardEffect okTenantNet okPaymentsNet emptyTokenClientState).1.routerPush
        = some loginRedirectPath ∧
    (dashboardEffect okTenantNet okPaymentsNet emptyTokenClientState).2.netLog = [] :=
  ⟨rfl, rfl, rfl⟩

/-- Claim C5 (amended): the dashboard guard is JS truthiness on the stored
token — with a falsy token (no Credential stored, or the stored credential
the empty string) the bootstrap pushes the login route and issues zero
network calls; with a truthy (nonempty) stored Credential both the
tenant-profile and the payment-history fetches go out (in that order),
whatever the backend answers. -/
theorem dashboard_bootstrap_fetch_policy (netMe : Request → Response TenantInfo)
    (netPay : Request → Response PaymentsBody) (s : ClientState) :
    (jsTruthy s.tokenStore = false ↔ (s.tokenStore = none ∨ s.tokenStore = some "")) ∧
    (jsTruthy s.tokenStore = false →
      (dashboardEffect netMe netPay s).1.routerPush = some loginRedirectPath ∧
      (dashboardEffect netMe netPay s).2.netLog = s.netLog) ∧
    (jsTruthy s.tokenStore = true →
      (dashboardEffect netMe netPay s).2.netLog.map Request.url
        = s.netLog.map Request.url
          ++ [API_BASE_URL ++ "/api/tenant/me", API_BASE_URL ++ "/api/tenant/payments"]) := by
  refine ⟨?_, ?_, ?_⟩
  · cases s.tokenStore <;> simp [jsTruthy]
  · intro h
    rw [dashboardEffect_of_falsy_token netMe netPay s h]
    exact ⟨rfl, rfl⟩
  · intro h
    rw [dashboardEffect_state_of_truthy_token netMe netPay s h,
        getPaymentHistory_state_eq, fetchWithAuth_netLog_eq,
        getTenantInfo_state_eq, fetchWithAuth_netLog_eq]
    simp [buildAuthRequest]

/-- On a non-ok login response, login throws detail || "登入失敗" and leaves
the token store untouched (only the request log grows). -/
theorem login_eq_of_not_ok (email password : String) (net : Request → Response LoginBody)
    (s : ClientState) (h : (net (loginRequest email password)).ok = false) :
    login email password net s =
      { result := Except.error
          (jsOrOpt (net (loginRequest email password)).body.detail "登入失敗")
        state := { s with netLog := s.netLog ++ [loginRequest email password] } } := by
  simp only [login, h, Bool.not_false, if_true]

/-- Claim C6: a failed login whose body carries a (nonempty) detail string
raises an error carrying exactly that string, the login form displays exactly
that string, and no token is written — the stored Credential is unchanged
(so it remains absent when it was absent). -/
theorem login_failure_shows_detail (email password d : String)
    (net : Request → Response LoginBody) (s : ClientState)
    (hok : (net (loginRequest email password)).ok = false)
    (hd : (net (loginRequest email password)).body.detail = some d)
    (hne : d ≠ "") :
    (login email password net s).result = Except.error d ∧
    (login email password net s).state.tokenStore = s.tokenStore ∧
    (tenantLoginSubmit email password net s).ui.error = d ∧
    (tenantLoginSubmit email password net s).state.tokenStore = s.tokenStore := by
  have hlogin := login_eq_of_not_ok email password net s hok
  have hdet : jsOrOpt (net (loginRequest email password)).body.detail "登入失敗" = d := by
    rw [hd]
    simp [jsOrOpt, hne]
  refine ⟨?_, ?_, ?_, ?_⟩
  · rw [hlogin, hdet]
  · rw [hlogin]
  · simp only [tenantLoginSubmit, hlogin, hdet]
    simp [jsOrStr, hne]
  · simp only [tenantLoginSubmit, hlogin, hdet]

/-- A backend that rejects the login with 400 and the canonical detail. -/
def badLoginNet : Request → Response LoginBody :=
  fun _ => { status := 400, body := { access_token := "", detail := some "帳號或密碼錯誤" } }

/-- Witness for claim C6 at the spec's concrete scenario:
login("a@b.com", "wrong") against a 400 {detail: "帳號或密碼錯誤"} backend. -/
theorem login_failure_shows_detail_witness :
    (login "a@b.com" "wrong" badLoginNet emptyClientState).result
        = Except.error "帳號或密碼錯誤" ∧
    (login "a@b.com" "wrong" badLoginNet emptyClientState).state.tokenStore
        = emptyClientState.tokenStore ∧
    (tenantLoginSubmit "a@b.com" "wrong" badLoginNet emptyClientState).ui.error
        = "帳號或密碼錯誤" ∧
    (tenantLoginSubmit "a@b.com" "wrong" badLoginNet emptyClientState).state.tokenStore
        = emptyClientState.tokenStore :=
  login_failure_shows_detail "a@b.com" "wrong" "帳號或密碼錯誤" badLoginNet
    emptyClientState rfl rfl (by decide)

/-- Claim C7: the status-to-badge mapping is total: paid, unpaid and overdue
map to the positive, neutral/pending and negative badges, and every other
status string yields no badge at all (none — nothing is rendered and, the
function being total, nothing is thrown). -/
theorem getStatusBadge_total_mapping (status : String)
    (h1 : status ≠ "paid") (h2 : status ≠ "unpaid") (h3 : status ≠ "overdue") :
    getStatusBadge "paid" = some paidBadge ∧
    getStatusBadge "unpaid" = some unpaidBadge ∧
    getStatusBadge "overdue" = some overdueBadge ∧
    getStatusBadge status = none := by
  refine ⟨rfl, rfl, rfl, ?_⟩
  unfold getStatusBadge
  rw [if_neg h1, if_neg h2, if_neg h3]

/-- Witness for claim C7 at a concrete unrecognized status string. -/
theorem getStatusBadge_total_mapping_witness :
    getStatusBadge "paid" = some paidBadge ∧
    getStatusBadge "unpaid" = some unpaidBadge ∧
    getStatusBadge "overdue" = some overdueBadge ∧
    getStatusBadge "pending" = none :=
  getStatusBadge_total_mapping "pending" (by decide) (by decide) (by decide)

/-- Claim C8 (evaluation at the failing input): an authenticated fetch to
/api/tenant/me answering 401 clears the Credential, raises "Unauthorized",
and the dashboard renders no tenant data from that response — but the forced
navigation targets the literal path "/(tenant)/login", not the path "/login"
the claim states (the login page, app/(tenant)/login/page.tsx, is served at
/login because Next.js strips route groups from URLs). -/
theorem tenant_me_401_redirect_eval :
    (getTenantInfo net401Tenant tokenClientState).2.tokenStore = none ∧
    (getTenantInfo net401Tenant tokenClientState).1 = Except.error "Unauthorized" ∧
    (getTenantInfo net401Tenant tokenClientState).2.locationHref = some "/(tenant)/login" ∧
    (getTenantInfo net401Tenant tokenClientState).2.locationHref ≠ some "/login" ∧
    (dashboardEffect net401Tenant okPaymentsNet tokenClientState).1.tenant = none := by
  refine ⟨rfl, rfl, rfl, by decide, rfl⟩

/-- Claim C10: getTenantInfo and getPaymentHistory never hand a non-ok raw
response back to their caller: off the 401 path, a non-ok response becomes a
local error with the fixed message, and an ok response yields exactly the
parsed body (for getPaymentHistory, exactly its payments field). -/
theorem read_apis_wrap_responses (netMe : Request → Response TenantInfo)
    (netPay : Request → Response PaymentsBody) (s sp : ClientState) :
    (((netMe (buildAuthRequest "/api/tenant/me" [] (getAccessToken s))).status ≠ 401 ∧
      (netMe (buildAuthRequest "/api/tenant/me" [] (getAccessToken s))).ok = false) →
      (getTenantInfo netMe s).1 = Except.error "無法取得房客資訊") ∧
    ((netMe (buildAuthRequest "/api/tenant/me" [] (getAccessToken s))).ok = true →
      (getTenantInfo netMe s).1
        = Except.ok (netMe (buildAuthRequest "/api/tenant/me" [] (getAccessToken s))).body) ∧
    (((netPay (buildAuthRequest "/api/tenant/payments" [] (getAccessToken sp))).status ≠ 401 ∧
      (netPay (buildAuthRequest "/api/tenant/payments" [] (getAccessToken sp))).ok = false) →
      (getPaymentHistory netPay sp).1 = Except.error "無法取得繳費紀錄") ∧
    ((netPay (buildAuthRequest "/api/tenant/payments" [] (getAccessToken sp))).ok = true →
      (getPaymentHistory netPay sp).1
        = Except.ok (netPay
            (buildAuthRequest "/api/tenant/payments" [] (getAccessToken sp))).body.payments) := by
  refine ⟨?_, ?_, ?_, ?_⟩
  · rintro ⟨h401, hok⟩
    simp only [getTenantInfo, fetchWithAuth_eq_of_not401 "/api/tenant/me" [] netMe s h401]
    simp [hok]
  · intro hok
    have h401 := status_ne_401_of_ok _ hok
    simp only [getTenantInfo, fetchWithAuth_eq_of_not401 "/api/tenant/me" [] netMe s h401]
    simp [hok]
  · rintro ⟨h401, hok⟩
    simp only [getPaymentHistory,
      fetchWithAuth_eq_of_not401 "/api/tenant/payments" [] netPay sp h401]
    simp [hok]
  · intro hok
    have h401 := status_ne_401_of_ok _ hok
    simp only [getPaymentHistory,
      fetchWithAuth_eq_of_not401 "/api/tenant/payments" [] netPay sp h401]
    simp [hok]

/-- Index-filtering away one index is eraseIdx, shifted by the start index. -/
theorem filterIdxFrom_bne_eq_eraseIdx {α : Type} (index : Nat) (xs : List α) :
    ∀ start : Nat, filterIdxFrom (fun i => i != index) start xs
      = if index < start then xs else xs.eraseIdx (index - start) := by
  induction xs with
  | nil =>
      intro start
      simp [filterIdxFrom]
  | cons x xs ih =>
      intro start
      simp only [filterIdxFrom]
      rcases Nat.lt_trichotomy start index with hlt | heq | hgt
      · have hbe : (start != index) = true := by
          simp only [bne_iff_ne, ne_eq]
          omega
        have h2 : ¬ index < start + 1 := by omega
        have h3 : ¬ index < start := by omega
        have hsub : index - start = (index - (start + 1)) + 1 := by omega
        rw [if_pos hbe, ih (start + 1), if_neg h2, if_neg h3, hsub]
        rfl
      · subst heq
        have hbe : ¬ ((start != start) = true) := by simp
        have h2 : start < start + 1 := Nat.lt_succ_self start
        rw [if_neg hbe, ih (start + 1), if_pos h2, if_neg (Nat.lt_irrefl start), Nat.sub_self]
        rfl
      · have hbe : (start != index) = true := by
          simp only [bne_iff_ne, ne_eq]
          omega
        have h2 : index < start + 1 := by omega
        rw [if_pos hbe, ih (start + 1), if_pos h2, if_pos hgt]

/-- removeImage is exactly eraseIdx on both the files and the previews. -/
theorem removeImage_eq_eraseIdx (index : Nat) (s : RepairState) :
    (removeImage index s).selectedFiles = s.selectedFiles.eraseIdx index ∧
    (removeImage index s).previewUrls = s.previewUrls.eraseIdx index := by
  constructor
  · show filterIdxFrom (fun i => i != index) 0 s.selectedFiles = s.selectedFiles.eraseIdx index
    rw [filterIdxFrom_bne_eq_eraseIdx index s.selectedFiles 0,
        if_neg (Nat.not_lt_zero index), Nat.sub_zero]
  · show filterIdxFrom (fun i => i != index) 0 s.previewUrls = s.previewUrls.eraseIdx index
    rw [filterIdxFrom_bne_eq_eraseIdx index s.previewUrls 0,
        if_neg (Nat.not_lt_zero index), Nat.sub_zero]

/-- Index-filtering never lengthens a list. -/
theorem length_filterIdxFrom_le {α : Type} (p : Nat → Bool) (xs : List α) :
    ∀ start : Nat, (filterIdxFrom p start xs).length ≤ xs.length := by
  induction xs with
  | nil =>
      intro start
      simp [filterIdxFrom]
  | cons x xs ih =>
      intro start
      simp only [filterIdxFrom, List.length_cons]
      split
      · simpa using Nat.succ_le_succ (ih (start + 1))
      · exact Nat.le_succ_of_le (ih (start + 1))

/-- One selection interaction keeps the 5-image cap. -/
theorem repairStep_preserves_cap (s : RepairState) (op : RepairOp)
    (h : s.selectedFiles.length ≤ 5) :
    (repairStep s op).selectedFiles.length ≤ 5 := by
  cases op with
  | select files =>
      simp only [repairStep, handleFileSelect]
      split
      · exact h
      · rename_i hle
        simp only [List.length_append]
        omega
  | remove index =>
      simp only [repairStep, removeImage]
      exact Nat.le_trans (length_filterIdxFrom_le _ s.selectedFiles 0) h

/-- The cap is preserved along any interaction sequence. -/
theorem foldl_repairStep_cap (ops : List RepairOp) :
    ∀ s : RepairState, s.selectedFiles.length ≤ 5 →
      (ops.foldl repairStep s).selectedFiles.length ≤ 5 := by
  induction ops with
  | nil =>
      intro s h
      exact h
  | cons op ops ih =>
      intro s h
      simp only [List.foldl_cons]
      exact ih _ (repairStep_preserves_cap s op h)

/-- Claim C9: from the empty selection, no sequence of handleFileSelect and
removeImage interactions ever pushes the number of selected images past 5;
and removeImage removes exactly the file and the preview at the given index,
keeping every other entry in its original relative order (it is eraseIdx on
both lists). -/
theorem repair_selection_invariants :
    (∀ ops : List RepairOp, (runRepairOps ops).selectedFiles.length ≤ 5) ∧
    (∀ (index : Nat) (s : RepairState),
      (removeImage index s).selectedFiles = s.selectedFiles.eraseIdx index ∧
      (removeImage index s).previewUrls = s.previewUrls.eraseIdx index) := by
  constructor
  · intro ops
    exact foldl_repairStep_cap ops initialRepairState (by simp [initialRepairState])
  · intro index s
    exact removeImage_eq_eraseIdx index s

end MicroRent
